import Mathlib

/-!
Verification development for the scripting-integration slice of the manaserv
game server.  The definitions below are a shallow embedding of the three
source files:

  * src/scripting/lua.cpp          (LuaScript, callbacks, loadScript)
  * src/game-server/itemmanager.cpp (ItemManager::reload / getItem)
  * src/account-server/accountclient.cpp (AccountClient)

Machine integers are modelled as Lean Int (none of the claims depend on
overflow).  C assert is modelled by returning Option: a `none` result of an
operation is an assertion failure (a fail-fast contract violation in a debug
build), `some` is the normal return.  Lua floating point is not involved in
any claim; numeric Lua values are modelled as integers.
-/

/-! ## Simulation objects and the heap

`Thing` objects are simulation entities.  lua.cpp passes them to scripts as
light userdata, i.e. raw addresses (`lua_pushlightuserdata(mState, v)`), and
`getNPC` / `getCharacter` recover them with `lua_touserdata` plus a runtime
check of `t->getType()`.  The heap maps addresses to the object currently
stored there (`none` = the address does not hold a live simulation object).
`objId` is the allocation identity of an object: two objects allocated at the
same address at different times have different `objId`s. -/

inductive ObjType where
  | npc
  | character
  | other
deriving DecidableEq, Repr

structure SimObject where
  objId : Nat
  otype : ObjType
  publicID : Int
deriving DecidableEq, Repr

def Heap := Nat → Option SimObject

/-! ## Lua values

Only the value shapes the claims touch: nil (also used for an absent stack
slot), numbers, strings and light userdata (a raw address). -/

inductive LuaValue where
  | nil
  | num (n : Int)
  | str (s : String)
  | lightuserdata (addr : Nat)
deriving DecidableEq, Repr

/-- Model of `lua_isnumber` / `lua_tointeger`: a number is numeric, and a
string is numeric when it parses as a number (Lua coerces numeric strings).
Returns the integer value, or `none` for a non-numeric value. -/
def luaToNumber : LuaValue → Option Int
  | .num n => some n
  | .str s => s.toInt?
  | _ => none

/-- Model of `lua_tolstring` at a callback argument position: strings convert
to themselves, numbers are coerced to their decimal text, anything else gives
NULL. -/
def luaToLString : LuaValue → Option String
  | .str s => some s
  | .num n => some (toString n)
  | _ => none

/-- Stack position `p` (1-based, as in the C API) of a callback argument
list; positions past the end read as an absent value (nil-like: neither
userdata nor string). -/
def luaArg (args : List LuaValue) (p : Nat) : LuaValue :=
  args.getD (p - 1) .nil

/-! ## The LuaScript call machinery (lua.cpp lines 43-198)

A Lua function reachable from the globals table is modelled by what the
claims observe of it: its behaviour on an argument list, either raising a
runtime error (with a message) or returning one value (`lua_pcall` with
`nresults = 1` adjusts to exactly one result). -/

inductive CallResult where
  | err (msg : String)
  | ret (v : LuaValue)

structure LuaFun where
  run : List LuaValue → CallResult

/-- The parts of the `lua_State` plus `LuaScript` members that the call
contract touches: the globals table (function-valued globals; a name bound
to `none` reads as nil, exactly what `lua_getglobal` pushes for an undefined
global), the callback names registered in the "tmw" namespace table, and the
call context: `nbArgs` (-1 = no call prepared), the value fetched by
`lua_getglobal` in `prepare` (`none` models nil: the name was unresolved),
and the pushed arguments, in push order, as they sit on the Lua stack. -/
structure LuaScript where
  globals : String → Option LuaFun
  tmw : List String
  nbArgs : Int
  prepared : Option LuaFun
  args : List LuaValue

/-- `LuaScript::prepare` (lua.cpp:160-165): asserts `nbArgs == -1`, fetches
the named global onto the stack, sets `nbArgs = 0`. -/
def LuaScript.prepare (sc : LuaScript) (name : String) : Option LuaScript :=
  if sc.nbArgs = -1 then
    some { sc with prepared := sc.globals name, nbArgs := 0, args := [] }
  else
    none

/-- `LuaScript::push(int)` (lua.cpp:167-172): asserts `nbArgs >= 0`, pushes
the integer, increments `nbArgs`. -/
def LuaScript.pushInt (sc : LuaScript) (v : Int) : Option LuaScript :=
  if 0 ≤ sc.nbArgs then
    some { sc with args := sc.args ++ [.num v], nbArgs := sc.nbArgs + 1 }
  else
    none

/-- `LuaScript::push(Thing *)` (lua.cpp:174-179): asserts `nbArgs >= 0` and
pushes the object as light userdata, i.e. its raw address — no handle table,
no generation check stands between the script and the pointer. -/
def LuaScript.pushThing (sc : LuaScript) (addr : Nat) : Option LuaScript :=
  if 0 ≤ sc.nbArgs then
    some { sc with args := sc.args ++ [.lightuserdata addr], nbArgs := sc.nbArgs + 1 }
  else
    none

/-- The value `push(Thing *v)` hands to the interpreter for an object at
address `addr`: the raw address itself, as light userdata. -/
def pushedThingValue (addr : Nat) : LuaValue := .lightuserdata addr

/-- Model of `lua_pcall(mState, nbArgs, 1, 0)` on the prepared value: calling
nil raises a runtime error, calling a function runs it. -/
def luaPcall (f : Option LuaFun) (args : List LuaValue) : CallResult :=
  match f with
  | none => .err "attempt to call a nil value"
  | some f => f.run args

/-- `LuaScript::execute` (lua.cpp:181-198): asserts `nbArgs >= 0`, performs
the protected call, sets `nbArgs = -1` immediately (before inspecting the
outcome), then: on error or non-numeric result logs a warning and returns 0,
otherwise returns the result converted by `lua_tointeger`.  Result:
(returned integer, log lines emitted, post state). -/
def LuaScript.resetCtx (sc : LuaScript) : LuaScript :=
  { sc with nbArgs := -1, prepared := none, args := [] }

def LuaScript.execute (sc : LuaScript) : Option (Int × List String × LuaScript) :=
  if 0 ≤ sc.nbArgs then
    match luaPcall sc.prepared sc.args with
    | .err m =>
      some (0, ["Failure while calling Lua function: " ++ m], sc.resetCtx)
    | .ret v =>
      match luaToNumber v with
      | none =>
        some (0, ["Failure while calling Lua function: bad value type"],
          sc.resetCtx)
      | some n => some (n, [], sc.resetCtx)
  else
    none

/-- A full `prepare(name); push*; execute()` sequence from a given state,
returning the integer result (`none` = an assertion fired along the way).
`PushArg` is the surface of the two push overloads. -/
inductive PushArg where
  | int (v : Int)
  | thing (addr : Nat)
deriving DecidableEq, Repr

def PushArg.toValue : PushArg → LuaValue
  | .int v => .num v
  | .thing a => .lightuserdata a

def LuaScript.pushMany (sc : LuaScript) : List PushArg → Option LuaScript
  | [] => some sc
  | p :: ps => do
    let sc' ← match p with
      | .int v => sc.pushInt v
      | .thing a => sc.pushThing a
    sc'.pushMany ps

def LuaScript.runCall (sc : LuaScript) (name : String) (ps : List PushArg) :
    Option Int := do
  let sc1 ← sc.prepare name
  let sc2 ← sc1.pushMany ps
  let (r, _, _) ← sc2.execute
  return r

/-! ## Handle resolution in the callback bridge (lua.cpp lines 73-87)

`getNPC` reads the value at stack position `p`; a non-light-userdata value
yields NULL, otherwise the raw address is cast back to `Thing *` and
`t->getType()` is consulted.  The C code dereferences whatever currently sits
at that address: if the original object was destroyed and the storage reused,
the read observes the object now living there (and reading genuinely freed
storage is undefined behaviour; the model charitably returns `none` for an
address holding no object at all). -/

def getNPC (h : Heap) (s : List LuaValue) (p : Nat) : Option SimObject :=
  match luaArg s p with
  | .lightuserdata addr =>
    match h addr with
    | some t => if t.otype = .npc then some t else none
    | none => none
  | _ => none

/-- `getCharacter` (lua.cpp:81-87), same scheme with `OBJECT_CHARACTER`. -/
def getCharacter (h : Heap) (s : List LuaValue) (p : Nat) : Option SimObject :=
  match luaArg s p with
  | .lightuserdata addr =>
    match h addr with
    | some t => if t.otype = .character then some t else none
    | none => none
  | _ => none

/-! ## Native callbacks (lua.cpp lines 92-129)

A callback's observable outcome: the log lines it emits, the messages it
sends (the native side effect via `gameHandler->sendTo`), and the values it
returns to the script (both callbacks `return 0`, i.e. no results).  The
callback type itself is a total function — the C functions contain no
`lua_error` call, so no exception can be raised into the interpreter. -/

structure SentMessage where
  recipient : SimObject
  msgId : String
  npcPublicID : Int
  text : String
deriving DecidableEq, Repr

structure CallbackOutcome where
  log : List String
  sent : List SentMessage
  results : List LuaValue
deriving DecidableEq, Repr

/-- `LuaMsg_NpcMessage` (lua.cpp:92-108): expects (1: NPC, 2: Character,
3: string).  On any NULL among the three it logs a warning naming the
callback and returns without side effect; otherwise it builds a
GPMSG_NPC_MESSAGE and sends it to the character. -/
def LuaMsg_NpcMessage (h : Heap) (s : List LuaValue) : CallbackOutcome :=
  match getNPC h s 1, getCharacter h s 2, luaToLString (luaArg s 3) with
  | some p, some q, some m =>
    { log := [], sent := [⟨q, "GPMSG_NPC_MESSAGE", p.publicID, m⟩], results := [] }
  | _, _, _ =>
    { log := ["LuaMsg_NpcMessage called with incorrect parameters."],
      sent := [], results := [] }

/-- `LuaMsg_NpcChoice` (lua.cpp:113-129), identical up to the message id and
the warning text. -/
def LuaMsg_NpcChoice (h : Heap) (s : List LuaValue) : CallbackOutcome :=
  match getNPC h s 1, getCharacter h s 2, luaToLString (luaArg s 3) with
  | some p, some q, some m =>
    { log := [], sent := [⟨q, "GPMSG_NPC_CHOICE", p.publicID, m⟩], results := [] }
  | _, _, _ =>
    { log := ["LuaMsg_NpcChoice called with incorrect parameters."],
      sent := [], results := [] }

/-! ## Constructor and loader (lua.cpp lines 131-158 and 200-223) -/

/-- The loaded chunk sitting on the stack when the constructor runs: running
it as top-level code transforms the globals table and optionally raises a
runtime error (message).  `lua_pcall` is not transactional: the globals
component reflects every definition the chunk made up to the point of the
error, so a script that defines functions and then fails leaves those
functions bound in the state. -/
structure LuaChunk where
  run : (String → Option LuaFun) →
    (String → Option LuaFun) × Option String

/-- `LuaScript::LuaScript` (lua.cpp:131-153): opens the standard libraries
(the base globals `base` model the environment after `luaL_openlibs`), then
`lua_pcall`s the chunk.  On failure it logs an error and returns early —
the callbacks are never registered, but the globals keep whatever the chunk
defined before erroring (the `lua_State` is not rolled back).  On success it
registers the two callbacks in the "tmw" namespace.  Returns the constructed
instance and the log emitted. -/
def LuaScript.construct (base : String → Option LuaFun) (chunk : LuaChunk) :
    LuaScript × List String :=
  match chunk.run base with
  | (g, some e) =>
    ({ globals := g, tmw := [], nbArgs := -1, prepared := none, args := [] },
     ["Failure while initializing Lua script: " ++ e])
  | (g, none) =>
    ({ globals := g, tmw := ["msg_npc_message", "msg_npc_choice"],
       nbArgs := -1, prepared := none, args := [] },
     [])

/-- Outcome of `luaL_loadstring` on the file contents. -/
inductive LoadResult where
  | ok
  | errSyntax
  | errMem
deriving DecidableEq, Repr

/-- What became of the `lua_State` created by `loadScript`. -/
inductive StateDisp where
  | notCreated
  | ownedByScript
  | closed
deriving DecidableEq, Repr

structure LoadOutcome where
  script : Bool
  log : List String
  luaState : StateDisp
deriving DecidableEq, Repr

/-- `loadScript` (lua.cpp:200-223): asks the resource manager for the file
(`file = none` models a missing file — the function returns NULL before any
`lua_State` exists, emitting no log of its own), then creates a state and
`luaL_loadstring`s the buffer.  Compile success hands the state to a new
LuaScript; a syntax error logs and falls through to `lua_close`; any other
compile failure (out of memory) reaches `lua_close` without a log.  `compile`
abstracts the Lua compiler on the buffer text. -/
def loadScript (compile : String → LoadResult) (file : Option String) :
    LoadOutcome :=
  match file with
  | none => { script := false, log := [], luaState := .notCreated }
  | some buffer =>
    match compile buffer with
    | .ok =>
      { script := true, log := ["Successfully loaded script"],
        luaState := .ownedByScript }
    | .errSyntax =>
      { script := false, log := ["Syntax error while loading script"],
        luaState := .closed }
    | .errMem =>
      { script := false, log := [], luaState := .closed }

/-! ## ItemManager (itemmanager.cpp)

The item database is an XML file; `reload` parses it and merges its item
definitions into the static `itemClasses` map and `itemDatabaseVersion`.
The XML layer (libxml2) is modelled by its parse outcome: a missing file,
a parse failure, or a document with an optional root element carrying child
nodes.  `ItemType`'s numeric order comes from item.hpp (not among the shown
files); the model keeps the constructors itemmanager.cpp names and a single
constructor for the other equipment kinds, which in the enum sit strictly
between ITEM_USABLE and ITEM_EQUIPMENT_AMMO. -/

inductive ItemType where
  | unusable
  | usable
  | equipOneHandWeapon
  | equipTwoHandsWeapon
  | equipOther
  | equipAmmo
  | hairSprite
  | raceSprite
  | unknown
deriving DecidableEq, Repr

/-- The test `itemType > ITEM_USABLE && itemType < ITEM_EQUIPMENT_AMMO`
(itemmanager.cpp:182): the non-ammo equipment kinds. -/
def ItemType.inEquipRange : ItemType → Bool
  | .equipOneHandWeapon => true
  | .equipTwoHandsWeapon => true
  | .equipOther => true
  | _ => false

/-- Model of C `atoi`: 0 when the text does not parse as an integer
(partial numeric prefixes are not modelled; no claim feeds one). -/
def atoiModel (s : String) : Int := (s.toInt?).getD 0

structure XmlNode where
  nodeName : String
  props : List (String × String)
deriving DecidableEq, Repr

/-- A successfully parsed document: `xmlDocGetRootElement` may still be NULL
(`root = none`); otherwise the root has a name and child nodes. -/
structure XmlDoc where
  root : Option (String × List XmlNode)
deriving DecidableEq, Repr

/-- `XML::getProperty` returning a string with a default. -/
def XML.getPropStr (n : XmlNode) (key dflt : String) : String :=
  match n.props.lookup key with
  | some v => v
  | none => dflt

/-- `XML::getProperty` returning an int with a default (absent property gives
the default; a present property is `atoi`ed). -/
def XML.getPropInt (n : XmlNode) (key : String) (dflt : Int) : Int :=
  match n.props.lookup key with
  | some v => atoiModel v
  | none => dflt

/-- The fields of an ItemClass that itemmanager.cpp sets.  The modifier
table, the attack zone and the attached script object involve classes outside
the shown files and are not observed by any claim; they are elided. -/
structure ItemClass where
  itemId : Int
  itemType : ItemType
  weight : Int
  cost : Int
  maxPerSlot : Int
  spriteID : Int
deriving DecidableEq, Repr

/-- The file-static state of itemmanager.cpp: the `itemClasses` map (an
association list with unique keys, modelling `std::map<int, ItemClass *>`)
and the database version.  (`itemDatabaseVersion` is `unsigned int` in the
source; no claim exercises the int-to-unsigned conversion, so it stays an
Int set by `atoi`.) -/
structure ItemManagerState where
  itemClasses : List (Int × ItemClass)
  itemDatabaseVersion : Int
deriving DecidableEq, Repr

/-- Map insertion/update for the `itemClasses.find(id)` / create-or-reuse
pattern: a fresh entry is appended, an existing entry keeps its place (and,
as in the source, keeps the itemType its constructor was given). -/
def insertOrUpdateItem (m : List (Int × ItemClass)) (id : Int)
    (fresh : ItemClass) (upd : ItemClass → ItemClass) :
    List (Int × ItemClass) :=
  match m with
  | [] => [(id, upd fresh)]
  | (k, v) :: rest =>
    if k = id then (k, upd v) :: rest
    else (k, v) :: insertOrUpdateItem rest id fresh upd

/-- One pass of the reload loop body (itemmanager.cpp:82-256) over a child
node.  `itemTypeFromString` and the weapon-type validity test
(`weaponTypeFromString(...) == WPNTYPE_NONE`) live outside the shown files
and are parameters.  Warning logs and the per-item modifier/attack-zone/
script wiring are elided (no claim observes them). -/
def processItemNode (itemTypeFromString : String → ItemType)
    (weaponTypeKnown : String → Bool)
    (st : ItemManagerState) (node : XmlNode) : ItemManagerState :=
  if node.nodeName = "version" then
    { st with itemDatabaseVersion :=
        atoiModel (XML.getPropStr node "revision" "") }
  else if node.nodeName ≠ "item" then st
  else
    let id := XML.getPropInt node "id" 0
    if id = 0 then st
    else
      let t0 := itemTypeFromString (XML.getPropStr node "type" "")
      let t1 := if t0 = ItemType.unknown then ItemType.unusable else t0
      if t1 = ItemType.hairSprite ∨ t1 = ItemType.raceSprite then st
      else
        let weight0 := XML.getPropInt node "weight" 0
        let value := XML.getPropInt node "value" 0
        let maxPerSlot0 := XML.getPropInt node "max-per-slot" 0
        let sprite := XML.getPropInt node "sprite_id" 0
        let isWeapon := t1 = ItemType.equipOneHandWeapon ∨
          t1 = ItemType.equipTwoHandsWeapon
        let t2 := if isWeapon ∧
            ¬ weaponTypeKnown (XML.getPropStr node "weapon-type" "")
          then ItemType.unusable else t1
        let maxPerSlot1 := if maxPerSlot0 = 0 then 1 else maxPerSlot0
        let maxPerSlot2 := if t2.inEquipRange ∧ maxPerSlot1 ≠ 1 then 1
          else maxPerSlot1
        let weight := if weight0 = 0 then 1 else weight0
        let upd := fun (it : ItemClass) =>
          { it with
            weight := weight
            cost := value
            maxPerSlot := maxPerSlot2
            spriteID := if sprite ≠ 0 then sprite else id }
        { st with itemClasses :=
            insertOrUpdateItem st.itemClasses id ⟨id, t1, 0, 0, 0, 0⟩ upd }

/-- `ItemManager::reload` (itemmanager.cpp:50-262).  `file = none` models a
missing file (ResourceManager::loadFile returned NULL), `some none` a buffer
xmlParseMemory rejects, `some (some doc)` a parsed document.  Each failure
branch logs an error and returns before touching the state; the success
branch folds the loop body over the root's children.  Returns the new state
and the error log. -/
def ItemManager.reload (itemTypeFromString : String → ItemType)
    (weaponTypeKnown : String → Bool)
    (file : Option (Option XmlDoc)) (st : ItemManagerState) :
    ItemManagerState × List String :=
  match file with
  | none => (st, ["Item Manager: Could not find item database!"])
  | some none => (st, ["Item Manager: Error while parsing item database!"])
  | some (some doc) =>
    match doc.root with
    | none => (st, ["Item Manager: not a valid database file!"])
    | some (rootName, children) =>
      if rootName = "items" then
        (children.foldl (processItemNode itemTypeFromString weaponTypeKnown)
          st, [])
      else
        (st, ["Item Manager: not a valid database file!"])

/-- `ItemManager::getItem` (itemmanager.cpp:273-277). -/
def ItemManager.getItem (st : ItemManagerState) (itemId : Int) :
    Option ItemClass :=
  st.itemClasses.lookup itemId

/-! ## AccountClient (accountclient.cpp)

The client holds at most one `Account` (`mAccount`, NULL when none), owning
it: `unsetAccount` deletes it (delete on NULL is a no-op) and nulls the
member; `setAccount` releases the old account first; the destructor calls
`unsetAccount`.  An operation's outcome is the new state plus the list of
accounts whose storage it released. -/

structure Account where
  accId : Nat
deriving DecidableEq, Repr

structure AccountClientState where
  mAccount : Option Account
deriving DecidableEq, Repr

/-- `AccountClient::AccountClient` (accountclient.cpp:23-28): starts with no
account. -/
def AccountClient.construct : AccountClientState := { mAccount := none }

/-- `AccountClient::unsetAccount` (accountclient.cpp:41-45): delete the held
account (releasing it if there is one), then null the member. -/
def AccountClient.unsetAccount (c : AccountClientState) :
    AccountClientState × List Account :=
  ({ mAccount := none }, c.mAccount.toList)

/-- `AccountClient::setAccount` (accountclient.cpp:35-39): release the old
account via `unsetAccount`, then store the new one. -/
def AccountClient.setAccount (c : AccountClientState) (acc : Account) :
    AccountClientState × List Account :=
  let r := AccountClient.unsetAccount c
  ({ mAccount := some acc }, r.2)

/-- `AccountClient::~AccountClient` (accountclient.cpp:30-33): releases any
held account by delegating to `unsetAccount`. -/
def AccountClient.destruct (c : AccountClientState) : List Account :=
  (AccountClient.unsetAccount c).2

/-! ## Shared concrete states used by witnesses -/

/-- Globals table binding no name (a freshly initialized environment with no
script-defined functions, as seen through function-valued globals). -/
def emptyGlobals : String → Option LuaFun := fun _ => none

/-- A LuaScript in the Reset state (no call prepared). -/
def luaReset : LuaScript :=
  { globals := emptyGlobals, tmw := [], nbArgs := -1, prepared := none,
    args := [] }

/-- A LuaScript in the Preparing state (a call in progress, no argument
pushed yet). -/
def luaPreparing : LuaScript :=
  { globals := emptyGlobals, tmw := [], nbArgs := 0, prepared := none,
    args := [] }

/-! ## Theorems and witnesses -/

/-- Helper: pushing a list of arguments from any in-progress state succeeds
and appends their values in push order, adding the count to `nbArgs`. -/
theorem LuaScript.pushMany_spec (ps : List PushArg) (sc : LuaScript)
    (h : 0 ≤ sc.nbArgs) :
    sc.pushMany ps =
      some { sc with
             args := sc.args ++ ps.map PushArg.toValue
             nbArgs := sc.nbArgs + ps.length } := by
  induction ps generalizing sc with
  | nil => simp [pushMany]
  | cons p ps ih =>
    obtain ⟨g, tmw, nb, pr, ar⟩ := sc
    simp only at h
    cases p with
    | int v =>
      simp only [pushMany, pushInt, if_pos h, Option.bind_eq_bind,
        Option.some_bind]
      rw [ih _ (by show (0:Int) ≤ nb + 1; omega)]
      simp [PushArg.toValue]
      omega
    | thing a =>
      simp only [pushMany, pushThing, if_pos h, Option.bind_eq_bind,
        Option.some_bind]
      rw [ih _ (by show (0:Int) ≤ nb + 1; omega)]
      simp [PushArg.toValue]
      omega

/-- C2: `execute()` leaves the Call Context in the "no call prepared" state
(`nbArgs = -1`) on every outcome on which it returns at all — successful
call, interpreter error, or non-numeric return value. -/
theorem C2_execute_resets_call_context (sc : LuaScript) (r : Int)
    (log : List String) (sc' : LuaScript)
    (h : sc.execute = some (r, log, sc')) : sc'.nbArgs = -1 := by
  unfold LuaScript.execute at h
  split at h
  · split at h <;>
      [skip; split at h] <;>
      simp_all [LuaScript.resetCtx] <;>
      obtain ⟨-, -, h⟩ := h <;> rw [← h]
  · exact absurd h (by simp)

/-- Witness for C2: executing from a concrete in-progress state (prepared
value nil) returns and leaves `nbArgs = -1`. -/
theorem C2_execute_resets_call_context_witness : luaPreparing.resetCtx.nbArgs = -1 :=
  C2_execute_resets_call_context luaPreparing 0
    ["Failure while calling Lua function: attempt to call a nil value"]
    luaPreparing.resetCtx rfl

/-- C3: whenever `execute()` encounters a call error — the prepared name was
unresolved (nil was fetched, so the protected call errors), the interpreter
raised a runtime error, or the returned value is not numeric — it returns the
fallback integer 0 and logs the failure; `execute` returns normally (the
model is a total function into `Option`, mirroring that no exception crosses
into native code: the error path ends in `return 0`). -/
theorem C3_call_error_returns_zero_and_logs (sc : LuaScript)
    (hprog : 0 ≤ sc.nbArgs)
    (hfail : sc.prepared = none ∨
      (∃ f m, sc.prepared = some f ∧ f.run sc.args = .err m) ∨
      (∃ f v, sc.prepared = some f ∧ f.run sc.args = .ret v ∧
        luaToNumber v = none)) :
    ∃ log, sc.execute = some (0, log, sc.resetCtx) ∧ log ≠ [] := by
  unfold LuaScript.execute
  rw [if_pos hprog]
  rcases hfail with hnil | ⟨f, m, hf, hrun⟩ | ⟨f, v, hf, hrun, hnum⟩
  · rw [hnil]
    exact ⟨_, rfl, by simp⟩
  · rw [hf]
    simp only [luaPcall, hrun]
    exact ⟨_, rfl, by simp⟩
  · rw [hf]
    simp only [luaPcall, hrun, hnum]
    exact ⟨_, rfl, by simp⟩

/-- Witness for C3: a concrete in-progress state whose prepared global was
unresolved executes to 0 with a nonempty log. -/
theorem C3_call_error_returns_zero_and_logs_witness :
    ∃ log, luaPreparing.execute = some (0, log, luaPreparing.resetCtx) ∧
      log ≠ [] :=
  C3_call_error_returns_zero_and_logs luaPreparing (by decide) (Or.inl rfl)

/-- C4: a full `prepare(name); push*; execute()` sequence on a script whose
globals bind `name` to a function delivers the pushed arguments to that
function in push order, and when the function returns the integer `n` the
sequence returns exactly `n`.  (The function `f` is arbitrary, and it is
applied to exactly `ps.map PushArg.toValue` — the pushed values in push
order.) -/
theorem C4_prepared_call_returns_function_result (sc : LuaScript)
    (name : String) (f : LuaFun) (ps : List PushArg) (n : Int)
    (h0 : sc.nbArgs = -1)
    (hg : sc.globals name = some f)
    (hf : f.run (ps.map PushArg.toValue) = .ret (.num n)) :
    sc.runCall name ps = some n := by
  simp only [LuaScript.runCall, LuaScript.prepare, if_pos h0, hg,
    Option.bind_eq_bind, Option.some_bind]
  rw [LuaScript.pushMany_spec _ _ (by norm_num)]
  simp only [Option.some_bind, LuaScript.execute, luaPcall, List.nil_append,
    hf, luaToNumber]
  rw [if_pos (by simp)]
  simp

/-- The end-to-end scenario of the spec: a script defining `onTalk` to
return 1. -/
def onTalkFun : LuaFun := ⟨fun _ => .ret (.num 1)⟩

def luaOnTalk : LuaScript :=
  { globals := fun s => if s = "onTalk" then some onTalkFun else none
    tmw := ["msg_npc_message", "msg_npc_choice"]
    nbArgs := -1
    prepared := none
    args := [] }

/-- Witness for C4: `prepare("onTalk"); push(npc); push(player); execute()`
returns 1 on a script whose `onTalk` returns 1. -/
theorem C4_prepared_call_returns_function_result_witness :
    luaOnTalk.runCall "onTalk" [PushArg.thing 1, PushArg.thing 2] = some 1 :=
  C4_prepared_call_returns_function_result luaOnTalk "onTalk" onTalkFun
    [PushArg.thing 1, PushArg.thing 2] 1 rfl (by simp [luaOnTalk]) rfl

/-- C5: calling `push` (either overload) or `execute` in the Reset state
(`nbArgs = -1`), or `prepare` in the Preparing state (`0 ≤ nbArgs`), trips
the assertion (modelled as a `none` result) — the misuse is never silently
accepted, for every LuaScript instance. -/
theorem C5_contract_misuse_asserts (sc : LuaScript) (name : String)
    (v : Int) (a : Nat) :
    (sc.nbArgs = -1 →
      sc.pushInt v = none ∧ sc.pushThing a = none ∧ sc.execute = none) ∧
    (0 ≤ sc.nbArgs → sc.prepare name = none) := by
  constructor
  · intro h
    refine ⟨?_, ?_, ?_⟩ <;>
      simp [LuaScript.pushInt, LuaScript.pushThing, LuaScript.execute, h]
  · intro h
    unfold LuaScript.prepare
    rw [if_neg (by omega)]

/-- Witness for C5: both misuses rejected on concrete states. -/
theorem C5_contract_misuse_asserts_witness :
    (luaReset.pushInt 7 = none ∧ luaReset.pushThing 3 = none ∧
      luaReset.execute = none) ∧ luaPreparing.prepare "onTalk" = none :=
  ⟨(C5_contract_misuse_asserts luaReset "onTalk" 7 3).1 rfl,
   (C5_contract_misuse_asserts luaPreparing "onTalk" 7 3).2 (by decide)⟩

/-- Concrete scenario for the handle-safety defect: an NPC (allocation
identity 1) lives at address 100, is destroyed, and its storage is reused by
a second NPC (allocation identity 2). -/
def npcFirst : SimObject := ⟨1, .npc, 5⟩

def npcSecond : SimObject := ⟨2, .npc, 9⟩

def heapLive : Heap := fun a => if a = 100 then some npcFirst else none

def heapReused : Heap := fun a => if a = 100 then some npcSecond else none

/-- C1 fails on the code: `push(Thing *)` hands the script the raw address
as light userdata (no handle table, no generation counter — the source's
own comment at lua.cpp:65-71 marks the resolution functions unsafe, with
"TODO: do it").  At the failing input, the handle minted for `npcFirst` is
the bare address 100; after `npcFirst` is destroyed and the storage reused
by `npcSecond`, `getNPC` resolves the held handle to `npcSecond` — a
different object, not a "stale" failure (and had the storage merely been
freed, `t->getType()` would read freed memory). -/
theorem C1_raw_pointer_handle_resolves_to_different_object :
    pushedThingValue 100 = LuaValue.lightuserdata 100 ∧
    (luaPreparing.pushThing 100).map LuaScript.args =
      some [LuaValue.lightuserdata 100] ∧
    getNPC heapLive [pushedThingValue 100] 1 = some npcFirst ∧
    getNPC heapReused [pushedThingValue 100] 1 = some npcSecond ∧
    npcSecond ≠ npcFirst :=
  ⟨rfl, rfl, rfl, rfl, by decide⟩

/-- C6 counterexample: for a missing script file, `loadScript` returns NULL
but emits no log line of its own — the claim's "logs the cause" fails at
this input (the only logging branches are the syntax-error and success
cases). -/
theorem C6_missing_file_loads_nothing_logs_nothing :
    (loadScript (fun _ => LoadResult.ok) none).script = false ∧
    (loadScript (fun _ => LoadResult.ok) none).log = [] :=
  ⟨rfl, rfl⟩

/-- C6 amended: a script file that fails to parse yields no Script, logs the
cause, and the freshly created interpreter state is closed before returning;
a missing file yields no Script with no interpreter state ever created, but
`loadScript` logs nothing itself in that case. -/
theorem C6_load_failure_null_logged_and_torn_down
    (compile : String → LoadResult) (buf : String)
    (hs : compile buf = LoadResult.errSyntax) :
    loadScript compile (some buf) =
      { script := false, log := ["Syntax error while loading script"]
        luaState := StateDisp.closed } ∧
    loadScript compile none =
      { script := false, log := [], luaState := StateDisp.notCreated } := by
  constructor
  · simp [loadScript, hs]
  · rfl

/-- Witness for the amended C6 at a concrete failing compile. -/
theorem C6_load_failure_null_logged_and_torn_down_witness :
    loadScript (fun _ => LoadResult.errSyntax) (some "x") =
      { script := false, log := ["Syntax error while loading script"]
        luaState := StateDisp.closed } ∧
    loadScript (fun _ => LoadResult.errSyntax) none =
      { script := false, log := [], luaState := StateDisp.notCreated } :=
  C6_load_failure_null_logged_and_torn_down (fun _ => LoadResult.errSyntax)
    "x" rfl

/-- C7: whenever a callback's argument validation fails — in particular for
every tag-shape mismatch (a non-handle where an entity handle is expected
makes `getNPC`/`getCharacter` NULL, an absent third argument makes
`lua_tolstring` NULL), both callbacks log a warning naming the callback,
send nothing (no native side effect), and return no values to the script;
the callbacks are total functions (no `lua_error` call exists in them, so no
exception is raised into the interpreter). -/
theorem C7_callback_validation_failure_has_no_side_effect (h : Heap)
    (s : List LuaValue)
    (hbad : getNPC h s 1 = none ∨ getCharacter h s 2 = none ∨
      luaToLString (luaArg s 3) = none) :
    LuaMsg_NpcMessage h s =
      { log := ["LuaMsg_NpcMessage called with incorrect parameters."]
        sent := [], results := [] } ∧
    LuaMsg_NpcChoice h s =
      { log := ["LuaMsg_NpcChoice called with incorrect parameters."]
        sent := [], results := [] } := by
  cases hp : getNPC h s 1 <;> cases hq : getCharacter h s 2 <;>
    cases hm : luaToLString (luaArg s 3) <;>
    simp_all [LuaMsg_NpcMessage, LuaMsg_NpcChoice]

/-- Witness for C7: an empty argument list (no handle, no string) on an
empty heap trips both warning paths. -/
theorem C7_callback_validation_failure_has_no_side_effect_witness :
    LuaMsg_NpcMessage (fun _ => none) [] =
      { log := ["LuaMsg_NpcMessage called with incorrect parameters."]
        sent := [], results := [] } ∧
    LuaMsg_NpcChoice (fun _ => none) [] =
      { log := ["LuaMsg_NpcChoice called with incorrect parameters."]
        sent := [], results := [] } :=
  C7_callback_validation_failure_has_no_side_effect (fun _ => none) []
    (Or.inl rfl)

/-- Helper: a call whose prepared name is unbound in the globals returns the
fallback 0 (the protected call on nil errors out). -/
theorem LuaScript.runCall_unresolved (sc : LuaScript) (name : String)
    (ps : List PushArg) (h0 : sc.nbArgs = -1) (hg : sc.globals name = none) :
    sc.runCall name ps = some 0 := by
  simp only [LuaScript.runCall, LuaScript.prepare, if_pos h0, hg,
    Option.bind_eq_bind, Option.some_bind]
  rw [LuaScript.pushMany_spec _ _ (by norm_num)]
  simp only [Option.some_bind, LuaScript.execute, luaPcall]
  rw [if_pos (by simp)]
  simp

/-- A chunk that first defines `onTalk` (returning 1) and then raises a
top-level runtime error — e.g. `function onTalk() return 1 end error("x")`.
Because `lua_pcall` does not roll the state back, the definition survives
the error. -/
def onTalkThenErrorChunk : LuaChunk :=
  ⟨fun base =>
    (fun s => if s = "onTalk" then some onTalkFun else base s, some "x")⟩

/-- C8 counterexample: construction with `onTalkThenErrorChunk` fails — the
error is logged and the callbacks stay unregistered — yet a later
`prepare("onTalk"); execute()` on that very instance succeeds and returns 1,
because the definition made before the top-level error persists in the
`lua_State`.  This refutes the claim's "every later call on that instance
simply fails". -/
theorem C8_failed_init_leaves_defined_function_callable :
    (LuaScript.construct emptyGlobals onTalkThenErrorChunk).2 =
      ["Failure while initializing Lua script: x"] ∧
    (LuaScript.construct emptyGlobals onTalkThenErrorChunk).1.tmw = [] ∧
    (LuaScript.construct emptyGlobals onTalkThenErrorChunk).1.runCall
      "onTalk" [] = some 1 :=
  ⟨rfl, rfl, rfl⟩

/-- C8 amended: the constructor evaluates the loaded chunk as top-level
code.  If that raises an error, the error is caught and logged and the
constructor still completes (the model is a total function — no crash),
leaving the callbacks unregistered; a later call on such an instance fails
with the fallback 0 for every function name the resulting interpreter state
leaves unbound — but top-level evaluation is not transactional, so a
function the script defined before the error remains callable.  If
evaluation succeeds, the two callbacks are registered under the fixed "tmw"
namespace and the chunk's globals are in effect. -/
theorem C8_constructor_catches_chunk_error_or_registers_callbacks
    (base : String → Option LuaFun) (chunk : LuaChunk) :
    (∀ g e, chunk.run base = (g, some e) →
      (LuaScript.construct base chunk).2 =
        ["Failure while initializing Lua script: " ++ e] ∧
      (LuaScript.construct base chunk).1.tmw = [] ∧
      ∀ name ps, g name = none →
        (LuaScript.construct base chunk).1.runCall name ps = some 0) ∧
    (∀ g, chunk.run base = (g, none) →
      (LuaScript.construct base chunk).1.tmw =
        ["msg_npc_message", "msg_npc_choice"] ∧
      (LuaScript.construct base chunk).1.globals = g) := by
  constructor
  · intro g e he
    unfold LuaScript.construct
    rw [he]
    refine ⟨rfl, rfl, fun name ps hn => ?_⟩
    exact LuaScript.runCall_unresolved _ name ps rfl hn
  · intro g hg
    unfold LuaScript.construct
    rw [hg]
    exact ⟨rfl, rfl⟩

/-- Witness for the amended C8: a chunk failing with "boom" while defining
nothing is caught and logged, and a later call to the never-defined
"onTalk" returns 0; a succeeding chunk gets the callbacks registered. -/
theorem C8_constructor_catches_chunk_error_or_registers_callbacks_witness :
    (LuaScript.construct emptyGlobals
      ⟨fun _ => (emptyGlobals, some "boom")⟩).2 =
      ["Failure while initializing Lua script: boom"] ∧
    (LuaScript.construct emptyGlobals
      ⟨fun _ => (emptyGlobals, some "boom")⟩).1.runCall "onTalk" [] =
      some 0 ∧
    (LuaScript.construct emptyGlobals ⟨fun g => (g, none)⟩).1.tmw =
      ["msg_npc_message", "msg_npc_choice"] := by
  obtain ⟨h1, -, h3⟩ :=
    (C8_constructor_catches_chunk_error_or_registers_callbacks emptyGlobals
      ⟨fun _ => (emptyGlobals, some "boom")⟩).1 emptyGlobals "boom" rfl
  exact ⟨h1, h3 "onTalk" [] rfl,
    ((C8_constructor_catches_chunk_error_or_registers_callbacks emptyGlobals
      ⟨fun g => (g, none)⟩).2 emptyGlobals rfl).1⟩

/-- C9: a reload whose file is missing, fails to parse, or whose root
element is not "items" returns before touching the state: the item class
table and the stored database version are unchanged, and `getItem` answers
exactly as before the call, for every item id. -/
theorem C9_failed_reload_preserves_item_table (itf : String → ItemType)
    (wtk : String → Bool) (file : Option (Option XmlDoc))
    (st : ItemManagerState)
    (hfail : file = none ∨ file = some none ∨
      ∃ doc, file = some (some doc) ∧
        (doc.root = none ∨
          ∃ nm ch, doc.root = some (nm, ch) ∧ nm ≠ "items")) :
    (ItemManager.reload itf wtk file st).1 = st ∧
    ∀ id, ItemManager.getItem (ItemManager.reload itf wtk file st).1 id =
      ItemManager.getItem st id := by
  have hst : (ItemManager.reload itf wtk file st).1 = st := by
    rcases hfail with rfl | rfl | ⟨doc, rfl, hroot⟩
    · rfl
    · rfl
    · rcases hroot with hnone | ⟨nm, ch, hsome, hne⟩
      · simp [ItemManager.reload, hnone]
      · simp [ItemManager.reload, hsome, hne]
  exact ⟨hst, fun id => by rw [hst]⟩

/-- Concrete one-item state for the C9 witness. -/
def itemStOne : ItemManagerState :=
  { itemClasses := [(5, ⟨5, ItemType.usable, 2, 3, 1, 5⟩)]
    itemDatabaseVersion := 7 }

/-- Witness for C9: a missing-file reload leaves a concrete one-item state
intact and `getItem 5` unchanged. -/
theorem C9_failed_reload_preserves_item_table_witness :
    (ItemManager.reload (fun _ => ItemType.unknown) (fun _ => true) none
      itemStOne).1 = itemStOne ∧
    ItemManager.getItem (ItemManager.reload (fun _ => ItemType.unknown)
      (fun _ => true) none itemStOne).1 5 =
      ItemManager.getItem itemStOne 5 := by
  obtain ⟨h1, h2⟩ := C9_failed_reload_preserves_item_table
    (fun _ => ItemType.unknown) (fun _ => true) none itemStOne (Or.inl rfl)
  exact ⟨h1, h2 5⟩

/-- C10: `unsetAccount` is idempotent — after one call the held account is
gone, and a second call leaves the state unchanged and releases nothing
(delete on NULL is a no-op).  `setAccount` always releases exactly the
previously held account before storing the new one, and the destructor
releases exactly the held account; the state holds at most one account by
construction (an Option-typed member). -/
theorem C10_account_release_idempotent_single_owner
    (c : AccountClientState) (a : Account) :
    (AccountClient.unsetAccount c).1.mAccount = none ∧
    AccountClient.unsetAccount (AccountClient.unsetAccount c).1 =
      ((AccountClient.unsetAccount c).1, []) ∧
    (AccountClient.setAccount c a).1.mAccount = some a ∧
    (AccountClient.setAccount c a).2 = c.mAccount.toList ∧
    AccountClient.destruct c = c.mAccount.toList :=
  ⟨rfl, rfl, rfl, rfl, rfl⟩
